import Mathlib

/-!
Verification development for the go-tpm-keyfiles repository (TSS2 PRIVATE KEY
codec).  The Go sources are shallowly embedded: bytes are `Nat`s below 256,
Go byte slices are `List Nat`, fallible Go functions returning `(T, error)`
become `Except String T` (errors carry the Go error string), Go functions
that can panic become `Option`-valued with `none` marking the panic.

The repository holds two snapshots of the key entity:
* package `keyfiles` (parse.go): the cryptobyte-based DER decoder `Parse`
  with un-exported fields; embedded in namespace `keyfiles`.
* package `keyfile` (key.go / keyfile.go): the entity with exported fields,
  public-key reconstruction (`ecdsaPubKey`, `rsaPubKey`, `PublicKey`),
  `HasSinger`, `Signer` and `Verify`; embedded in namespace `keyfile`.

The low-level ASN.1 reading primitives are the ones of
golang.org/x/crypto/cryptobyte that the decoder calls; they are embedded
function-for-function (low-tag-number form only, DER minimal length and
boolean encodings, as in that library).  Go advances the cursor in place;
here every reader returns the parsed value together with the remaining
bytes, and failure is `none`.
-/

/-- Big-endian accumulation of a byte list into a `Nat`
(cryptobyte `readUnsigned`, also `big.Int.SetBytes`). -/
def beNat (l : List Nat) : Nat := l.foldl (fun a b => a * 256 + b) 0

/-- cryptobyte `String.readASN1`: reads one TLV element.  Low-tag-number
form only; long-form lengths must be minimally encoded (DER), at most
4 length octets.  Returns `(tag, element, rest)` where `element` drops the
header when `skipHeader` is true.  `none` is the Go `false` return. -/
def readASN1Any (s : List Nat) (skipHeader : Bool) : Option (Nat × List Nat × List Nat) :=
  match s with
  | tagB :: lenB :: _ =>
    if tagB % 32 = 31 then none
    else
      let hl : Option (Nat × Nat) :=
        if lenB < 0x80 then some (2, lenB + 2)
        else
          let lenLen := lenB - 0x80
          if lenLen = 0 ∨ lenLen > 4 ∨ s.length < 2 + lenLen then none
          else
            let len32 := beNat ((s.drop 2).take lenLen)
            if len32 < 0x80 then none
            else if len32 / 2 ^ ((lenLen - 1) * 8) = 0 then none
            else some (2 + lenLen, 2 + lenLen + len32)
      match hl with
      | none => none
      | some (headerLen, len) =>
        if len ≤ s.length then
          some (tagB, (if skipHeader then (s.take len).drop headerLen else s.take len), s.drop len)
        else none
  | _ => none

/-- cryptobyte `String.ReadASN1`: element with the given tag, header
stripped. -/
def ReadASN1 (s : List Nat) (tag : Nat) : Option (List Nat × List Nat) :=
  match readASN1Any s true with
  | some (t, out, rest) => if t = tag then some (out, rest) else none
  | none => none

/-- cryptobyte `String.PeekASN1Tag`. -/
def PeekASN1Tag (s : List Nat) (tag : Nat) : Bool :=
  match s with
  | b :: _ => b = tag
  | [] => false

/-- cryptobyte `String.ReadOptionalASN1`: `some (none, s)` when the tag is
absent, `some (some contents, rest)` when present and well-formed. -/
def ReadOptionalASN1 (s : List Nat) (tag : Nat) : Option (Option (List Nat) × List Nat) :=
  if PeekASN1Tag s tag then
    match ReadASN1 s tag with
    | some (out, rest) => some (some out, rest)
    | none => none
  else some (none, s)

/-- cryptobyte `String.ReadASN1Boolean`: DER booleans only (single octet,
0x00 or 0xff). -/
def ReadASN1Boolean (s : List Nat) : Option (Bool × List Nat) :=
  match ReadASN1 s 0x01 with
  | some (bytes, rest) =>
    match bytes with
    | [0x00] => some (false, rest)
    | [0xff] => some (true, rest)
    | _ => none
  | none => none

/-- cryptobyte `checkASN1Integer`: non-empty, minimally encoded. -/
def checkASN1Integer : List Nat → Bool
  | [] => false
  | [_] => true
  | b0 :: b1 :: _ => !((b0 = 0 ∧ b1 < 0x80) ∨ (b0 = 0xff ∧ 0x80 ≤ b1) : Bool)

/-- cryptobyte `asn1Signed`: two's-complement big-endian value, at most
8 content octets. -/
def asn1Signed (n : List Nat) : Option Int :=
  if n.length > 8 then none
  else
    let u := beNat n
    let bits := 8 * n.length
    some (if u < 2 ^ (bits - 1) then (u : Int) else (u : Int) - 2 ^ bits)

/-- cryptobyte `String.ReadASN1Integer` (into a Go `int`). -/
def ReadASN1Integer (s : List Nat) : Option (Int × List Nat) :=
  match ReadASN1 s 0x02 with
  | some (bytes, rest) =>
    if checkASN1Integer bytes then
      match asn1Signed bytes with
      | some v => some (v, rest)
      | none => none
    else none
  | none => none

/-- cryptobyte `String.ReadASN1Bytes` (an alias of `ReadASN1`). -/
def ReadASN1Bytes (s : List Nat) (tag : Nat) : Option (List Nat × List Nat) :=
  ReadASN1 s tag

/-- cryptobyte `String.readBase128Int`: one OID subidentifier; at most
5 octets, no 0x80 leading octet, bounded below 2^31. -/
def readBase128Int (s : List Nat) : Option (Nat × List Nat) :=
  go 0 0 s
where
  go : Nat → Nat → List Nat → Option (Nat × List Nat)
    | _, _, [] => none
    | i, ret, b :: rest =>
      if i = 5 then none
      else if 2 ^ 24 ≤ ret then none
      else if i = 0 ∧ b = 0x80 then none
      else
        let ret2 := ret * 128 + b % 128
        if b < 0x80 then some (ret2, rest)
        else go (i + 1) ret2 rest

/-- Remaining OID subidentifiers after the first octet group; fuel is the
byte count (each subidentifier consumes at least one byte). -/
def readOIDTail : List Nat → Nat → Option (List Nat)
  | [], _ => some []
  | l, fuel + 1 =>
    match readBase128Int l with
    | none => none
    | some (v, rest) => (readOIDTail rest fuel).map (v :: ·)
  | _ :: _, 0 => none

/-- cryptobyte `String.ReadASN1ObjectIdentifier`, producing the component
list of an `encoding/asn1.ObjectIdentifier`. -/
def ReadASN1ObjectIdentifier (s : List Nat) : Option (List Nat × List Nat) :=
  match readASN1Any s true with
  | some (t, bytes, rest) =>
    if t = 0x06 then
      if bytes = [] then none
      else
        match readBase128Int bytes with
        | none => none
        | some (v, bytes1) =>
          let first2 := if v < 80 then [v / 40, v % 40] else [2, v - 80]
          match readOIDTail bytes1 bytes1.length with
          | none => none
          | some comps => some (first2 ++ comps, rest)
    else none
  | none => none

/-- Go `unicode/utf8.Valid`: the byte list is well-formed UTF-8 (RFC 3629:
no overlongs, no surrogates, at most U+10FFFF). -/
def utf8Valid : List Nat → Bool
  | [] => true
  | b :: rest =>
    if b < 0x80 then utf8Valid rest
    else if b < 0xC2 then false
    else if b < 0xE0 then
      match rest with
      | c1 :: r => decide (0x80 ≤ c1 ∧ c1 < 0xC0) && utf8Valid r
      | [] => false
    else if b < 0xF0 then
      match rest with
      | c1 :: c2 :: r =>
        (if b = 0xE0 then decide (0xA0 ≤ c1 ∧ c1 < 0xC0)
         else if b = 0xED then decide (0x80 ≤ c1 ∧ c1 < 0xA0)
         else decide (0x80 ≤ c1 ∧ c1 < 0xC0)) &&
        decide (0x80 ≤ c2 ∧ c2 < 0xC0) && utf8Valid r
      | _ => false
    else if b < 0xF5 then
      match rest with
      | c1 :: c2 :: c3 :: r =>
        (if b = 0xF0 then decide (0x90 ≤ c1 ∧ c1 < 0xC0)
         else if b = 0xF4 then decide (0x80 ≤ c1 ∧ c1 < 0x90)
         else decide (0x80 ≤ c1 ∧ c1 < 0xC0)) &&
        decide (0x80 ≤ c2 ∧ c2 < 0xC0) && decide (0x80 ≤ c3 ∧ c3 < 0xC0) && utf8Valid r
      | _ => false
    else false

namespace keyfiles

/-- id-tpmkey reference OID (parse.go). -/
def oidTPMKey : List Nat := [2, 23, 133, 10, 2]

/-- Legacy loadable-key OID (parse.go `OIDOldLoadableKey`). -/
def OIDOldLoadableKey : List Nat := [2, 23, 133, 10, 2]

/-- Loadable-key OID (parse.go `OIDLoadableKey`). -/
def OIDLoadableKey : List Nat := [2, 23, 133, 10, 1, 3]

/-- Importable-key OID (parse.go `OIDImportbleKey`, source spelling kept). -/
def OIDImportbleKey : List Nat := [2, 23, 133, 10, 1, 4]

/-- Sealed-key OID (parse.go `OIDSealedKey`). -/
def OIDSealedKey : List Nat := [2, 23, 133, 10, 1, 5]

/-- parse.go `TPMPolicy`: command code plus opaque command-policy bytes. -/
structure TPMPolicy where
  commandCode : Int
  commandPolicy : List Nat
deriving DecidableEq, Repr

/-- parse.go `TPMAuthPolicy`.  A Go `string` is a byte sequence, so the
name is kept as bytes. -/
structure TPMAuthPolicy where
  name : List Nat
  policy : List TPMPolicy
deriving DecidableEq, Repr

/-- parse.go `TPMKey`.  Go nil and empty slices are observationally
identical everywhere in this package (only length and elements are ever
inspected), so both embed as `[]`; the `secret` field's nil-versus-set
distinction is the `Option`. -/
structure TPMKey where
  keytype : List Nat
  emptyAuth : Bool
  policy : List TPMPolicy
  secret : Option (List Nat)
  authPolicy : List TPMAuthPolicy
  Parent : Int
  Pubkey : List Nat
  Privkey : List Nat
deriving DecidableEq, Repr

/-- parse.go `parseTPMPolicy` (lines 55-104).  Reads the optional
context-tag-1 wrapper; absent means no policies and no error.  When the
wrapper is present the inner sequence is read, and then AT MOST ONE
element is parsed: the `if !policySequence.Empty()` block runs once and
any further elements are silently ignored. -/
def parseTPMPolicy (der : List Nat) : Except String (List TPMPolicy × List Nat) :=
  match ReadOptionalASN1 der 0xA1 with
  | none => .error "should have policy, failed reading"
  | some (none, rest) => .ok ([], rest)
  | some (some policy, rest) =>
    match ReadASN1 policy 0x30 with
    | none => .error "malformed policy sequence"
    | some (policySequence, _) =>
      if policySequence = [] then .ok ([], rest)
      else
        match ReadASN1 policySequence 0x30 with
        | none => .error "malformed policy sequence"
        | some (policyBytes, _) =>
          match ReadASN1 policyBytes 0xA0 with
          | none => .error "strip tag from commandCode"
          | some (ccBytes, policyBytes2) =>
            match ReadASN1Integer ccBytes with
            | none => .error "malformed policy commandCode"
            | some (commandCode, _) =>
              match ReadASN1 policyBytes2 0xA1 with
              | none => .error "strip tag from commandPolicy"
              | some (cpBytes, _) =>
                match ReadASN1Bytes cpBytes 0x04 with
                | none => .error "malformed policy commandPolicy"
                | some (commandPolicy, _) =>
                  .ok ([⟨commandCode, commandPolicy⟩], rest)

/-- parse.go `parseTPMAuthPolicy` (lines 111-168).  Reads the optional
context-tag-3 wrapper; absent means no auth-policies and no error.  When
the wrapper is present it validates one inner element (optional UTF-8
name, then the mandatory non-empty policy list) — and then ends in the
source's `return nil, nil`, so the parsed entries are DISCARDED and the
success result is always the empty list. -/
def parseTPMAuthPolicy (der : List Nat) : Except String (List TPMAuthPolicy × List Nat) :=
  match ReadOptionalASN1 der 0xA3 with
  | none => .error "should have authPolicy, failed reading"
  | some (none, rest) => .ok ([], rest)
  | some (some sAuthPolicy, rest) =>
    match ReadASN1 sAuthPolicy 0x30 with
    | none => .error "malformed auth policy sequence"
    | some (authPolicySequence, _) =>
      if authPolicySequence = [] then .ok ([], rest)
      else
        match ReadASN1 authPolicySequence 0x30 with
        | none => .error "malformed auth policy sequence"
        | some (authPolicyBytes, _) =>
          match ReadOptionalASN1 authPolicyBytes 0xA0 with
          | none => .error "strip tag from commandCode"
          | some (optName, authPolicyBytes2) =>
            match (match optName with
                   | none => Except.ok ([] : List Nat)
                   | some nameBytes =>
                     match ReadASN1 nameBytes 0x0C with
                     | none => .error "malformed utf8string in auth policy name"
                     | some (nameB, _) =>
                       if utf8Valid nameB then .ok nameB
                       else .error "invalid utf8 bytes in name of auth policy") with
            | .error e => .error e
            | .ok _name =>
              match parseTPMPolicy authPolicyBytes2 with
              | .error err => .error ("failed parsing tpm policies in auth policy: " ++ err)
              | .ok (tpmpolicies, _) =>
                if tpmpolicies = [] then .error "tpm policies in auth policy is empty"
                else .ok ([], rest)

/-- parse.go `Parse` lines 227-233: the emptyAuth value from the optional
wrapper contents (absent defaults to the Go zero value `false`). -/
def readEmptyAuth : Option (List Nat) → Except String Bool
  | none => .ok false
  | some c =>
    match ReadASN1Boolean c with
    | none => .error "no emptyAuth bool"
    | some (v, _) => .ok v

/-- parse.go `Parse` lines 241-253: the optional context-tag-2 secret. -/
def readSecret : Option (List Nat) → Except String (Option (List Nat))
  | none => .ok none
  | some sSecret =>
    match ReadASN1 sSecret 0x04 with
    | none => .error "could not parse secret"
    | some (secret, _) => .ok (some secret)

/-- parse.go `Parse` (lines 181-283) on the DER bytes.  The enclosing PEM
armor (`unwrapPEM`, delegating to encoding/pem) is an external
collaborator per the spec and is not part of the codec proper; inputs here
are the dearmored DER bytes.  Trailing bytes after the outer sequence, and
after the privkey inside it, are ignored as in the source. -/
def Parse (b : List Nat) : Except String TPMKey :=
  match ReadASN1 b 0x30 with
  | none => .error "no sequence"
  | some (s0, _) =>
    match ReadASN1ObjectIdentifier s0 with
    | none => .error "no contentinfo oid"
    | some (oid, s1) =>
      if oid = OIDLoadableKey ∨ oid = OIDImportbleKey ∨ oid = OIDSealedKey ∨
          oid = OIDOldLoadableKey then
        match ReadOptionalASN1 s1 0xA0 with
        | none => .error "should have emptyAuth, failed reading"
        | some (optEA, s2) =>
          match readEmptyAuth optEA with
          | .error e => .error e
          | .ok emptyAuth =>
            match parseTPMPolicy s2 with
            | .error e => .error ("failed reading TPMPolicy: " ++ e)
            | .ok (policy, s3) =>
              match ReadOptionalASN1 s3 0xA2 with
              | none => .error "should have secret, failed reading"
              | some (optSecret, s4) =>
                match readSecret optSecret with
                | .error e => .error e
                | .ok secret =>
                  match parseTPMAuthPolicy s4 with
                  | .error e => .error ("failed reading TPMAuthPolicy: " ++ e)
                  | .ok (authPolicy, s5) =>
                    match ReadASN1Integer s5 with
                    | none => .error "failed reading parent"
                    | some (parent, s6) =>
                      match ReadASN1 s6 0x04 with
                      | none => .error "could not parse pubkey"
                      | some (pubkey, s7) =>
                        match ReadASN1 s7 0x04 with
                        | none => .error "could not parse privkey"
                        | some (privkey, _) =>
                          .ok { keytype := oid, emptyAuth := emptyAuth,
                                policy := policy, secret := secret,
                                authPolicy := authPolicy, Parent := parent,
                                Pubkey := pubkey, Privkey := privkey }
      else .error "unknown key type"

end keyfiles

deriving instance DecidableEq for Except

namespace keyfile

/-- go-tpm `tpm2.TPMAlgRSA`. -/
def TPMAlgRSA : Nat := 0x0001

/-- go-tpm `tpm2.TPMAlgKeyedHash`. -/
def TPMAlgKeyedHash : Nat := 0x0008

/-- go-tpm `tpm2.TPMAlgECC`. -/
def TPMAlgECC : Nat := 0x0023

/-- go-tpm `tpm2.TPMECCNistP256`. -/
def TPMECCNistP256 : Nat := 0x0003

/-- go-tpm `tpm2.TPMECCNistP384`. -/
def TPMECCNistP384 : Nat := 0x0004

/-- go-tpm `tpm2.TPMECCNistP521`. -/
def TPMECCNistP521 : Nat := 0x0005

/-- go-tpm `tpm2.TPMRHOwner`, the owner-hierarchy handle. -/
def TPMRHOwner : Nat := 0x40000001

/-- The object-attribute bits of a TPM public area; only the bit this
package reads is carried (go-tpm `tpm2.TPMAObject.SignEncrypt`, bit 18 of
the attribute word). -/
structure TPMAObject where
  SignEncrypt : Bool
deriving DecidableEq, Repr

/-- The algorithm-specific parameters union of a TPM public area
(go-tpm `tpm2.TPMUPublicParms`), reduced to the detail fields this
package reads. -/
inductive TPMUPublicParms where
  | eccDetail (CurveID : Nat)
  | rsaDetail (exponent : Nat)
  | keyedHashDetail
deriving DecidableEq, Repr

/-- An ECC point with unsigned big-endian coordinate byte strings
(go-tpm `tpm2.TPMSECCPoint`, the 2B wrappers flattened to their
buffers). -/
structure TPMSECCPoint where
  X : List Nat
  Y : List Nat
deriving DecidableEq, Repr

/-- The unique-key-material union of a TPM public area
(go-tpm `tpm2.TPMUPublicID`). -/
inductive TPMUPublicID where
  | ecc (point : TPMSECCPoint)
  | rsa (Buffer : List Nat)
  | keyedHash (Buffer : List Nat)
deriving DecidableEq, Repr

/-- The parsed TPM public area (go-tpm `tpm2.TPMTPublic`), reduced to the
fields this package reads.  The Go field `Type` is spelled `PubType`
(`Type` is reserved in Lean). -/
structure TPMTPublic where
  PubType : Nat
  ObjectAttributes : TPMAObject
  Parameters : TPMUPublicParms
  Unique : TPMUPublicID
deriving DecidableEq, Repr

/-- A length-prefixed TPM 2B field: two big-endian size octets then that
many payload octets. -/
def read2B (b : List Nat) : Option (List Nat × List Nat) :=
  match b with
  | l1 :: l2 :: rest =>
    let n := l1 * 256 + l2
    if rest.length < n then none else some (rest.take n, rest.drop n)
  | _ => none

/-- Modelled from the spec: the external TPM-structures library's
`ParsePublicArea(bytes) -> PublicAreaFields` (go-tpm
`tpm2.TPM2BPublic.Contents`, not part of this repository).  The spec
treats the blob as opaque and names the extracted fields (algorithm,
attribute flags, curve/RSA detail, unique key material); this model uses
a concrete layout carrying exactly those fields — type (2 octets),
attributes (4 octets), then per-type detail: for ECC a curve identifier
(2 octets) and 2B-prefixed X and Y coordinates, for RSA a 4-octet
exponent and a 2B-prefixed modulus, for keyed-hash a 2B-prefixed digest.
Malformed blobs (truncated, or an algorithm outside the union) error, as
the spec requires of the external library. -/
def parsePublicArea (b : List Nat) : Except String TPMTPublic :=
  match b with
  | t1 :: t2 :: a1 :: a2 :: a3 :: a4 :: rest =>
    let ptype := t1 * 256 + t2
    let attrs := ((a1 * 256 + a2) * 256 + a3) * 256 + a4
    let oa : TPMAObject := ⟨attrs.testBit 18⟩
    if ptype = TPMAlgECC then
      match rest with
      | c1 :: c2 :: rest2 =>
        match read2B rest2 with
        | some (x, rest3) =>
          match read2B rest3 with
          | some (y, _) => .ok ⟨ptype, oa, .eccDetail (c1 * 256 + c2), .ecc ⟨x, y⟩⟩
          | none => .error "malformed public area"
        | none => .error "malformed public area"
      | _ => .error "malformed public area"
    else if ptype = TPMAlgRSA then
      match rest with
      | e1 :: e2 :: e3 :: e4 :: rest2 =>
        match read2B rest2 with
        | some (n, _) =>
          .ok ⟨ptype, oa, .rsaDetail (((e1 * 256 + e2) * 256 + e3) * 256 + e4), .rsa n⟩
        | none => .error "malformed public area"
      | _ => .error "malformed public area"
    else if ptype = TPMAlgKeyedHash then
      match read2B rest with
      | some (d, _) => .ok ⟨ptype, oa, .keyedHashDetail, .keyedHash d⟩
      | none => .error "malformed public area"
    else .error "unsupported public area type"
  | _ => .error "malformed public area"

/-- go-tpm `tpm2.TPM2BPublic`: the boxed public-area blob. -/
structure TPM2BPublic where
  Buffer : List Nat
deriving DecidableEq, Repr

/-- go-tpm `tpm2.TPM2BPrivate`. -/
structure TPM2BPrivate where
  Buffer : List Nat
deriving DecidableEq, Repr

/-- go-tpm `tpm2.TPM2BEncryptedSecret`. -/
structure TPM2BEncryptedSecret where
  Buffer : List Nat
deriving DecidableEq, Repr

/-- Modelled from the spec: go-tpm `tpm2.TPM2BPublic.Contents`, the
external library's parse of the boxed public area. -/
def TPM2BPublic.Contents (p : TPM2BPublic) : Except String TPMTPublic :=
  parsePublicArea p.Buffer

/-- Modelled from the spec: go-tpm `tpm2.TPMUPublicID.ECC`, the checked
union accessor (errors when the unique material is not an ECC point). -/
def TPMUPublicID.ECC : TPMUPublicID → Except String TPMSECCPoint
  | .ecc point => .ok point
  | _ => .error "no ecc unique"

/-- Modelled from the spec: go-tpm `tpm2.TPMUPublicID.RSA`. -/
def TPMUPublicID.RSA : TPMUPublicID → Except String (List Nat)
  | .rsa buf => .ok buf
  | _ => .error "no rsa unique"

/-- go-tpm `tpm2.TPMSECCParms`, reduced to the curve identifier. -/
structure TPMSECCParms where
  CurveID : Nat
deriving DecidableEq, Repr

/-- go-tpm `tpm2.TPMSRSAParms`, reduced to the public exponent. -/
structure TPMSRSAParms where
  Exponent : Nat
deriving DecidableEq, Repr

/-- Modelled from the spec: go-tpm `tpm2.TPMUPublicParms.ECCDetail`. -/
def TPMUPublicParms.ECCDetail : TPMUPublicParms → Except String TPMSECCParms
  | .eccDetail c => .ok ⟨c⟩
  | _ => .error "no ecc parameters"

/-- Modelled from the spec: go-tpm `tpm2.TPMUPublicParms.RSADetail`. -/
def TPMUPublicParms.RSADetail : TPMUPublicParms → Except String TPMSRSAParms
  | .rsaDetail e => .ok ⟨e⟩
  | _ => .error "no rsa parameters"

/-- crypto/elliptic named curves as used by `ecdsaPubKey`. -/
inductive EllipticCurve where
  | P256
  | P384
  | P521
deriving DecidableEq, Repr

/-- Go `crypto/ecdsa.PublicKey`: named curve plus coordinates as unsigned
big integers (`big.Int.SetBytes`). -/
structure EcdsaPublicKey where
  Curve : EllipticCurve
  X : Nat
  Y : Nat
deriving DecidableEq, Repr

/-- Go `crypto/rsa.PublicKey`. -/
structure RsaPublicKey where
  N : Nat
  E : Nat
deriving DecidableEq, Repr

/-- Modelled from the spec: go-tpm `tpm2.RSAPub` — modulus from the
unique bytes, exponent defaulting to the conventional 65537 when the
detail records zero. -/
def RSAPub (detail : TPMSRSAParms) (unique : List Nat) : Except String RsaPublicKey :=
  .ok ⟨beNat unique, if detail.Exponent = 0 then 65537 else detail.Exponent⟩

/-- key.go `TPMPolicy` (exported-field snapshot). -/
structure TPMPolicy where
  CommandCode : Int
  CommandPolicy : List Nat
deriving DecidableEq, Repr

/-- key.go `TPMAuthPolicy` (exported-field snapshot). -/
structure TPMAuthPolicy where
  Name : String
  Policy : List TPMPolicy
deriving DecidableEq, Repr

/-- key.go `TPMKey` (the exported-field snapshot of the key entity,
src/unnamed/part_000 lines 27-38). -/
structure TPMKey where
  Keytype : List Nat
  EmptyAuth : Bool
  Policy : List TPMPolicy
  Secret : TPM2BEncryptedSecret
  AuthPolicy : List TPMAuthPolicy
  Description : String
  Parent : Nat
  Pubkey : TPM2BPublic
  Privkey : TPM2BPrivate
  userAuth : List Nat
deriving DecidableEq, Repr

/-- key.go `HasSinger` (source spelling; lines 65-71): the SignEncrypt
attribute bit of the parsed public area.  The Go function PANICS when the
public area does not parse; the panic is modelled as `none`. -/
def TPMKey.HasSinger (t : TPMKey) : Option Bool :=
  match t.Pubkey.Contents with
  | .error _ => none
  | .ok pub => some pub.ObjectAttributes.SignEncrypt

/-- key.go `HasAuth`: the negation of EmptyAuth. -/
def TPMKey.HasAuth (t : TPMKey) : Bool := !t.EmptyAuth

/-- key.go `KeyAlgo` (lines 77-83): the algorithm tag of the parsed
public area; panics (none) when the public area does not parse. -/
def TPMKey.KeyAlgo (t : TPMKey) : Option Nat :=
  match t.Pubkey.Contents with
  | .error _ => none
  | .ok pub => some pub.PubType

/-- key.go `ecdsaPubKey` (lines 93-129).  After the curve switch the Go
function returns `ecdsaKey, nil`; when the curve identifier matches none
of the three cases `ecdsaKey` is still the nil pointer, so the result is
a nil key WITH NO ERROR — modelled as `.ok none`. -/
def TPMKey.ecdsaPubKey (t : TPMKey) : Except String (Option EcdsaPublicKey) :=
  match t.Pubkey.Contents with
  | .error _ => .error "can't serialize public key contents"
  | .ok pub =>
    match pub.Unique.ECC with
    | .error e => .error e
    | .ok ecc =>
      match pub.Parameters.ECCDetail with
      | .error e => .error e
      | .ok eccdeets =>
        .ok (if eccdeets.CurveID = TPMECCNistP256 then
               some ⟨.P256, beNat ecc.X, beNat ecc.Y⟩
             else if eccdeets.CurveID = TPMECCNistP384 then
               some ⟨.P384, beNat ecc.X, beNat ecc.Y⟩
             else if eccdeets.CurveID = TPMECCNistP521 then
               some ⟨.P521, beNat ecc.X, beNat ecc.Y⟩
             else none)

/-- key.go `rsaPubKey` (lines 131-146). -/
def TPMKey.rsaPubKey (t : TPMKey) : Except String RsaPublicKey :=
  match t.Pubkey.Contents with
  | .error _ => .error "can't serialize public key contents"
  | .ok pub =>
    match pub.Parameters.RSADetail with
    | .error e => .error ("failed getting rsa details: " ++ e)
    | .ok rsaDetail =>
      match pub.Unique.RSA with
      | .error e => .error ("failed getting unique rsa: " ++ e)
      | .ok rsaUnique => RSAPub rsaDetail rsaUnique

/-- The dynamic (`any`) result of key.go `PublicKey`: an ECDSA public key
(possibly the nil pointer) or an RSA public key. -/
inductive PubAny where
  | ecdsa (pk : Option EcdsaPublicKey)
  | rsa (pk : RsaPublicKey)
deriving DecidableEq, Repr

/-- key.go `PublicKey` (lines 149-157): dispatch on the algorithm tag.
`KeyAlgo` panics when the public area does not parse, hence the outer
`Option`. -/
def TPMKey.PublicKey (t : TPMKey) : Option (Except String PubAny) :=
  match t.KeyAlgo with
  | none => none
  | some alg =>
    if alg = TPMAlgECC then some (t.ecdsaPubKey.map .ecdsa)
    else if alg = TPMAlgRSA then some (t.rsaPubKey.map .rsa)
    else some (.error "no public key")

/-- go-tpm `transport.TPMCloser`, opaque here. -/
structure TPMCloser where
deriving DecidableEq, Repr

/-- Modelled from the spec: `NewTPMKeySigner` (signer.go, not under
src/) constructs the crypto.Signer handle binding the key, the TPM
transport and the owner/auth secrets; per the spec's signer contract the
construction itself cannot fail. -/
structure TPMKeySigner where
  key : TPMKey
  ownerAuth : List Nat
  tpm : TPMCloser
  auth : List Nat
deriving DecidableEq, Repr

/-- Modelled from the spec: the `NewTPMKeySigner` constructor. -/
def NewTPMKeySigner (t : TPMKey) (ownerAuth : List Nat) (tpm : TPMCloser)
    (auth : List Nat) : TPMKeySigner :=
  ⟨t, ownerAuth, tpm, auth⟩

/-- key.go `Signer` (lines 161-172): fails with the no-sign-capability
error when `HasSinger` is false, otherwise returns the signer handle.
`HasSinger` panics (none) when the public area does not parse. -/
def TPMKey.Signer (t : TPMKey) (tpm : TPMCloser) (ownerAuth auth : List Nat) :
    Option (Except String TPMKeySigner) :=
  match t.HasSinger with
  | none => none
  | some hs =>
    if hs then some (.ok (NewTPMKeySigner t ownerAuth tpm auth))
    else some (.error "does not have sign/encrypt attribute set")

/-- key.go `Verify` (lines 174-190).  The Go stdlib verification
primitives are external collaborators and enter as parameters:
`ecdsaVerifyASN1` is `crypto/ecdsa.VerifyASN1` (true exactly when the
signature verifies) and `rsaVerifyPKCS1v15` is
`crypto/rsa.VerifyPKCS1v15` (`none` on success, `some msg` on failure).
Go matches a nil `*ecdsa.PublicKey` against its case and then
dereferences it inside `VerifyASN1`; that crash is the outer `none`. -/
def TPMKey.Verify (ecdsaVerifyASN1 : EcdsaPublicKey → List Nat → List Nat → Bool)
    (rsaVerifyPKCS1v15 : RsaPublicKey → Nat → List Nat → List Nat → Option String)
    (t : TPMKey) (alg : Nat) (hashed sig : List Nat) :
    Option (Bool × Option String) :=
  match t.PublicKey with
  | none => none
  | some (.error e) => some (false, some ("failed getting pubkey: " ++ e))
  | some (.ok (.ecdsa none)) => none
  | some (.ok (.ecdsa (some pk))) =>
    if ecdsaVerifyASN1 pk hashed sig then some (true, none)
    else some (false, some "invalid signature")
  | some (.ok (.rsa pk)) =>
    match rsaVerifyPKCS1v15 pk alg hashed sig with
    | some err => some (false, some ("signature verification failed: " ++ err))
    | none => some (true, none)

end keyfile

/-!
Concrete wire inputs (DER bytes of the TPMKey outer sequence, the
dearmored content of a TSS2 PRIVATE KEY file) used as witnesses and
counterexamples below.
-/

/-- Trailing mandatory fields shared by the concrete inputs:
`parent INTEGER 40`, `pubkey OCTET STRING aa bb`,
`privkey OCTET STRING cc`. -/
def tailBytes : List Nat := [0x02, 0x01, 0x28, 0x04, 0x02, 0xaa, 0xbb, 0x04, 0x01, 0xcc]

/-- The loadable-key OID 2.23.133.10.1.3 in DER. -/
def oidLBytes : List Nat := [0x06, 0x06, 0x67, 0x81, 0x05, 0x0a, 0x01, 0x03]

/-- A minimal loadable key: OID, no optional fields, then the mandatory
tail. -/
def bPlain : List Nat := [0x30, 0x12] ++ oidLBytes ++ tailBytes

/-- A context-tag-3 auth-policy wrapper holding one TPMAuthPolicy with
name "a" and a one-element policy list (command code 127, command policy
01 02). -/
def authPolWrapperBytes : List Nat :=
  [0xA3, 0x1a, 0x30, 0x18, 0x30, 0x16, 0xA0, 0x03, 0x0c, 0x01, 0x61,
   0xA1, 0x0f, 0x30, 0x0d, 0x30, 0x0b, 0xA0, 0x03, 0x02, 0x01, 0x7f,
   0xA1, 0x04, 0x04, 0x02, 0x01, 0x02]

/-- `bPlain` with the auth-policy wrapper `authPolWrapperBytes`
inserted. -/
def bWithAuthPol : List Nat := [0x30, 0x2e] ++ oidLBytes ++ authPolWrapperBytes ++ tailBytes

/-- `bPlain` with a PRESENT but EMPTY context-tag-1 policy wrapper
(`A1 02 30 00`). -/
def bEmptyPolicy : List Nat := [0x30, 0x16] ++ oidLBytes ++ [0xA1, 0x02, 0x30, 0x00] ++ tailBytes

/-- `bPlain` with an explicit `emptyAuth [0] EXPLICIT BOOLEAN FALSE`. -/
def bExplicitFalse : List Nat :=
  [0x30, 0x17] ++ oidLBytes ++ [0xA0, 0x03, 0x01, 0x01, 0x00] ++ tailBytes

/-- A well-formed outer sequence whose OID 2.23.133.10.1.6 is none of the
four recognized key types. -/
def bUnknownOid : List Nat :=
  [0x30, 0x12] ++ [0x06, 0x06, 0x67, 0x81, 0x05, 0x0a, 0x01, 0x06] ++ tailBytes

/-- A context-tag-1 policy wrapper whose inner sequence holds TWO
well-formed TPMPolicy elements (command codes 127 and 16). -/
def twoPolicyWrapper : List Nat :=
  [0xA1, 0x1c, 0x30, 0x1a,
   0x30, 0x0b, 0xA0, 0x03, 0x02, 0x01, 0x7f, 0xA1, 0x04, 0x04, 0x02, 0x01, 0x02,
   0x30, 0x0b, 0xA0, 0x03, 0x02, 0x01, 0x10, 0xA1, 0x04, 0x04, 0x02, 0x01, 0x02]

/-- The key every one of `bPlain`, `bWithAuthPol`, `bEmptyPolicy` and
`bExplicitFalse` decodes to. -/
def kPlain : keyfiles.TPMKey :=
  { keytype := [2, 23, 133, 10, 1, 3], emptyAuth := false, policy := [],
    secret := none, authPolicy := [], Parent := 40,
    Pubkey := [0xaa, 0xbb], Privkey := [0xcc] }

/-- A public-area blob in the modelled layout: algorithm ECC (0x0023),
attribute word 0x00040000 (SignEncrypt, bit 18), curve P-256 (0x0003),
X = 01 02, Y = 03 04. -/
def eccBlob : List Nat :=
  [0x00, 0x23, 0x00, 0x04, 0x00, 0x00, 0x00, 0x03,
   0x00, 0x02, 0x01, 0x02, 0x00, 0x02, 0x03, 0x04]

/-- `eccBlob` with the unrecognized curve identifier 0x0006 (NIST P-224)
and a cleared attribute word. -/
def badCurveBlob : List Nat :=
  [0x00, 0x23, 0x00, 0x00, 0x00, 0x00, 0x00, 0x06,
   0x00, 0x01, 0x09, 0x00, 0x01, 0x08]

/-- A key entity holding `eccBlob`: a signing-capable P-256 key. -/
def kECC : keyfile.TPMKey :=
  { Keytype := [2, 23, 133, 10, 1, 3], EmptyAuth := true, Policy := [],
    Secret := ⟨[]⟩, AuthPolicy := [], Description := "",
    Parent := keyfile.TPMRHOwner, Pubkey := ⟨eccBlob⟩, Privkey := ⟨[0xcc]⟩,
    userAuth := [] }

/-- A key entity holding `badCurveBlob`: parses as ECC but with an
unsupported curve, and without the SignEncrypt attribute. -/
def kBadCurve : keyfile.TPMKey :=
  { kECC with EmptyAuth := false, Pubkey := ⟨badCurveBlob⟩ }

/-- The exported-field key entity carrying the raw pubkey bytes that
`keyfiles.Parse bPlain` stored without validating them. -/
def kFromPlain : keyfile.TPMKey :=
  { kECC with Pubkey := ⟨[0xaa, 0xbb]⟩ }

/-- The parsed form of `eccBlob`. -/
def pubECC : keyfile.TPMTPublic :=
  ⟨0x23, ⟨true⟩, .eccDetail 3, .ecc ⟨[1, 2], [3, 4]⟩⟩

/-- A public-area blob in the modelled layout for RSA: algorithm 0x0001,
attribute word 0x00040000 (SignEncrypt), public exponent 3, 2B-prefixed
modulus 05. -/
def rsaBlob : List Nat :=
  [0x00, 0x01, 0x00, 0x04, 0x00, 0x00, 0x00, 0x00, 0x00, 0x03, 0x00, 0x01, 0x05]

/-- A key entity holding `rsaBlob`: an RSA key with N = 5, E = 3. -/
def kRSA : keyfile.TPMKey := { kECC with Pubkey := ⟨rsaBlob⟩ }

/-- parse.go `parseTPMPolicy` once more (lines 55-104), now additionally
tracking the nil-ness of the returned Go slice, which the coarser
`keyfiles.parseTPMPolicy` above quotients away: `none` embeds the nil
slice, `some l` a non-nil slice with elements `l`.  The absent-wrapper
path returns the non-nil empty literal `[]*TPMPolicy{}` (source line 65);
the present-but-empty path returns the accumulator `var tpmpolicies`,
never appended to and hence still nil (lines 56, 74, 103); the
one-element path returns the appended, non-nil slice.  Error paths are
unchanged. -/
def keyfiles.parseTPMPolicyNil (der : List Nat) :
    Except String (Option (List keyfiles.TPMPolicy) × List Nat) :=
  match ReadOptionalASN1 der 0xA1 with
  | none => .error "should have policy, failed reading"
  | some (none, rest) => .ok (some [], rest)
  | some (some policy, rest) =>
    match ReadASN1 policy 0x30 with
    | none => .error "malformed policy sequence"
    | some (policySequence, _) =>
      if policySequence = [] then .ok (none, rest)
      else
        match ReadASN1 policySequence 0x30 with
        | none => .error "malformed policy sequence"
        | some (policyBytes, _) =>
          match ReadASN1 policyBytes 0xA0 with
          | none => .error "strip tag from commandCode"
          | some (ccBytes, policyBytes2) =>
            match ReadASN1Integer ccBytes with
            | none => .error "malformed policy commandCode"
            | some (commandCode, _) =>
              match ReadASN1 policyBytes2 0xA1 with
              | none => .error "strip tag from commandPolicy"
              | some (cpBytes, _) =>
                match ReadASN1Bytes cpBytes 0x04 with
                | none => .error "malformed policy commandPolicy"
                | some (commandPolicy, _) =>
                  .ok (some [⟨commandCode, commandPolicy⟩], rest)

/-- Minimal big-endian byte representation of a natural number (empty for
zero). -/
def beBytes : Nat → List Nat
  | 0 => []
  | n + 1 => beBytes ((n + 1) / 256) ++ [(n + 1) % 256]
decreasing_by exact Nat.div_lt_self (Nat.succ_pos n) (by norm_num)

/-- DER length octets: short form below 128, otherwise minimal long
form. -/
def derLen (n : Nat) : List Nat :=
  if n < 128 then [n] else (0x80 + (beBytes n).length) :: beBytes n

/-- A DER TLV element: tag, minimal length octets, content. -/
def derTLV (tag : Nat) (content : List Nat) : List Nat :=
  tag :: derLen content.length ++ content

/-- The octet count of the minimal two's-complement encoding of the
negative value -m (for m > 0): the least L with m ≤ 2^(8L-1).  Fueled by
m, which always suffices since m ≤ 2^(8m-1). -/
def twosLen (m : Nat) : Nat := go m 1
where
  go : Nat → Nat → Nat
    | 0, L => L
    | fuel + 1, L => if m ≤ 2 ^ (8 * L - 1) then L else go fuel (L + 1)

/-- Exactly L big-endian octets of n (for n < 256^L). -/
def bePad (n L : Nat) : List Nat :=
  (List.range L).map (fun i => n / 256 ^ (L - 1 - i) % 256)

/-- Minimal two's-complement content octets of a DER INTEGER. -/
def derIntContent (v : Int) : List Nat :=
  if 0 ≤ v then
    let bs := beBytes v.toNat
    if bs = [] then [0]
    else if 128 ≤ bs.headD 0 then 0 :: bs
    else bs
  else
    let m := (-v).toNat
    let L := twosLen m
    bePad (2 ^ (8 * L) - m) L

/-- Modelled from the spec: `EncodePolicies`, the policy half of the
encoder (`Encode`/`Marshal`, which is not under src/).  Per the spec it
emits the fixed TPMPolicy element layout (SEQUENCE of a context-tag-0
explicit INTEGER command code and a context-tag-1 explicit OCTET STRING
command policy) under the context-tag-1 wrapper, with canonical DER
lengths, and it must re-emit the outer wrapper exactly when the source
Key CARRIED a present (possibly empty) wrapper, presence being tracked
distinct from length zero.  In the decoded Go Key the only such presence
trace is the policy slice's nil-ness (see `parseTPMPolicyNil`): an
absent wrapper yields the non-nil empty slice and every present wrapper
yields nil or a non-empty slice, so this model omits the wrapper for the
non-nil empty slice and emits it for every other value. -/
def keyfiles.EncodePolicies : Option (List keyfiles.TPMPolicy) → List Nat
  | some [] => []
  | policy =>
    derTLV 0xA1 (derTLV 0x30 (((policy.getD []).map (fun p =>
      derTLV 0x30 (derTLV 0xA0 (derTLV 0x02 (derIntContent p.commandCode)) ++
        derTLV 0xA1 (derTLV 0x04 p.commandPolicy)))).flatten))

/-- Inversion of a successful `keyfiles.Parse`: the sequence of reads the
source performs, with the intermediate cursors, and the decoded record
assembled from their results.  Shared by the claim theorems below. -/
theorem keyfiles.Parse_ok_inv (b : List Nat) (k : keyfiles.TPMKey)
    (h : keyfiles.Parse b = .ok k) :
    ∃ s0 r0 oid s1 optEA s2 emptyAuth policy s3 optSecret s4 secret aps s5 parent s6
      pubkey s7 privkey s8,
      ReadASN1 b 0x30 = some (s0, r0) ∧
      ReadASN1ObjectIdentifier s0 = some (oid, s1) ∧
      (oid = keyfiles.OIDLoadableKey ∨ oid = keyfiles.OIDImportbleKey ∨
        oid = keyfiles.OIDSealedKey ∨ oid = keyfiles.OIDOldLoadableKey) ∧
      ReadOptionalASN1 s1 0xA0 = some (optEA, s2) ∧
      keyfiles.readEmptyAuth optEA = .ok emptyAuth ∧
      keyfiles.parseTPMPolicy s2 = .ok (policy, s3) ∧
      ReadOptionalASN1 s3 0xA2 = some (optSecret, s4) ∧
      keyfiles.readSecret optSecret = .ok secret ∧
      keyfiles.parseTPMAuthPolicy s4 = .ok (aps, s5) ∧
      ReadASN1Integer s5 = some (parent, s6) ∧
      ReadASN1 s6 0x04 = some (pubkey, s7) ∧
      ReadASN1 s7 0x04 = some (privkey, s8) ∧
      k = { keytype := oid, emptyAuth := emptyAuth, policy := policy, secret := secret,
            authPolicy := aps, Parent := parent, Pubkey := pubkey, Privkey := privkey } := by
  unfold keyfiles.Parse at h
  split at h
  · exact absurd h (by simp)
  next s0 r0 heq0 =>
  split at h
  · exact absurd h (by simp)
  next oid s1 heq1 =>
  split at h
  case isFalse => exact absurd h (by simp)
  next hoid =>
  split at h
  · exact absurd h (by simp)
  next optEA s2 heq2 =>
  split at h
  · exact absurd h (by simp)
  next emptyAuth heq3 =>
  split at h
  · exact absurd h (by simp)
  next policy s3 heq4 =>
  split at h
  · exact absurd h (by simp)
  next optSecret s4 heq5 =>
  split at h
  · exact absurd h (by simp)
  next secret heq6 =>
  split at h
  · exact absurd h (by simp)
  next aps s5 heq7 =>
  split at h
  · exact absurd h (by simp)
  next parent s6 heq8 =>
  split at h
  · exact absurd h (by simp)
  next pubkey s7 heq9 =>
  split at h
  · exact absurd h (by simp)
  next privkey s8 heq10 =>
  cases h
  exact ⟨s0, r0, oid, s1, optEA, s2, emptyAuth, policy, s3, optSecret, s4, secret, aps,
    s5, parent, s6, pubkey, s7, privkey, s8, heq0, heq1, hoid, heq2, heq3, heq4, heq5,
    heq6, heq7, heq8, heq9, heq10, rfl⟩

/-- C1: byte-exact round-trip fails on the code.  The input `bWithAuthPol`
(a loadable key carrying one auth-policy) and the input `bPlain` (the same
key with the auth-policy wrapper removed) are distinct wire encodings that
both decode successfully to the very same Key with an EMPTY auth-policy
list — `parseTPMAuthPolicy` ends in `return nil, nil`, discarding what it
parsed — so no re-encoding of the decoded Key can reproduce both inputs
byte-for-byte. -/
theorem parse_discards_authPolicy_collapsing_distinct_inputs :
    keyfiles.Parse bWithAuthPol = .ok kPlain ∧
    keyfiles.Parse bPlain = .ok kPlain ∧
    bWithAuthPol ≠ bPlain ∧ kPlain.authPolicy = [] := by
  refine ⟨by decide, by decide, by decide, rfl⟩

/-- C2: `parseTPMAuthPolicy` does return an empty sequence without error
when the context-tag-3 wrapper is absent (second conjunct), but it ALSO
returns the empty sequence when the wrapper is present and holds a fully
well-formed auth-policy (name "a", one policy) — the parsed entries are
discarded by the source's `return nil, nil` (first conjunct), so the
decoded Key's auth-policy list does NOT contain the auth-policies present
on the wire. -/
theorem parseTPMAuthPolicy_returns_empty_on_success :
    keyfiles.parseTPMAuthPolicy authPolWrapperBytes = .ok ([], []) ∧
    keyfiles.parseTPMAuthPolicy [] = .ok ([], []) := by
  exact ⟨by decide, by decide⟩

/-- C3: on a present policy wrapper whose inner sequence carries TWO
well-formed TPMPolicy elements (command codes 127 and 16),
`parseTPMPolicy` returns only ONE Policy — the `if !policySequence.Empty()`
block parses the first element and the rest of the inner sequence is
silently dropped, contradicting the claim that n elements decode to n
Policy values. -/
theorem parseTPMPolicy_parses_only_first_element :
    keyfiles.parseTPMPolicy twoPolicyWrapper = .ok ([⟨127, [1, 2]⟩], []) := by decide

/-- C4 counterexample: for a public area that parses as an elliptic-curve
key with the unsupported curve identifier 0x0006, `ecdsaPubKey` returns a
nil key WITH NO ERROR (`.ok none`), not an UnsupportedCurve error: in the
source the curve switch has no default case and the trailing
`return ecdsaKey, nil` returns the nil pointer. -/
theorem ecdsaPubKey_unsupported_curve_nil_no_error :
    kBadCurve.ecdsaPubKey = .ok none := by decide

/-- C4 (amended): for every Key whose public area parses as an
elliptic-curve key, `ecdsaPubKey` succeeds with correctly mapped curve and
big-endian coordinates when the curve identifier is P-256, P-384 or P-521,
and for any other curve identifier it returns a nil key with no error. -/
theorem ecdsaPubKey_curve_dispatch (t : keyfile.TPMKey) (pub : keyfile.TPMTPublic)
    (ecc : keyfile.TPMSECCPoint) (deets : keyfile.TPMSECCParms)
    (h1 : t.Pubkey.Contents = .ok pub) (h2 : pub.Unique.ECC = .ok ecc)
    (h3 : pub.Parameters.ECCDetail = .ok deets) :
    (deets.CurveID = keyfile.TPMECCNistP256 →
      t.ecdsaPubKey = .ok (some ⟨.P256, beNat ecc.X, beNat ecc.Y⟩)) ∧
    (deets.CurveID = keyfile.TPMECCNistP384 →
      t.ecdsaPubKey = .ok (some ⟨.P384, beNat ecc.X, beNat ecc.Y⟩)) ∧
    (deets.CurveID = keyfile.TPMECCNistP521 →
      t.ecdsaPubKey = .ok (some ⟨.P521, beNat ecc.X, beNat ecc.Y⟩)) ∧
    (deets.CurveID ≠ keyfile.TPMECCNistP256 → deets.CurveID ≠ keyfile.TPMECCNistP384 →
      deets.CurveID ≠ keyfile.TPMECCNistP521 → t.ecdsaPubKey = .ok none) := by
  simp only [keyfile.TPMKey.ecdsaPubKey, h1, h2, h3]
  refine ⟨fun hc => ?_, fun hc => ?_, fun hc => ?_, fun hc1 hc2 hc3 => ?_⟩
  · rw [hc]
    simp [keyfile.TPMECCNistP256, keyfile.TPMECCNistP384, keyfile.TPMECCNistP521]
  · rw [hc]
    simp [keyfile.TPMECCNistP256, keyfile.TPMECCNistP384, keyfile.TPMECCNistP521]
  · rw [hc]
    simp [keyfile.TPMECCNistP256, keyfile.TPMECCNistP384, keyfile.TPMECCNistP521]
  · rw [if_neg hc1, if_neg hc2, if_neg hc3]

/-- C4 witness: the concrete P-256 key `kECC` exercises the supported-curve
arm of `ecdsaPubKey_curve_dispatch` (X = 0x0102 = 258, Y = 0x0304 = 772). -/
theorem ecdsaPubKey_curve_dispatch_witness :
    kECC.Pubkey.Contents = .ok pubECC ∧
    kECC.ecdsaPubKey = .ok (some ⟨.P256, 258, 772⟩) :=
  ⟨by decide,
   (ecdsaPubKey_curve_dispatch kECC pubECC ⟨[1, 2], [3, 4]⟩ ⟨3⟩ (by decide) (by decide)
     (by decide)).1 (by decide)⟩

/-- C5 counterexample: when the ECDSA primitive rejects the signature
(here instantiated with the constant-false verifier, standing for any
tampered signature or mismatched digest), `Verify` returns false TOGETHER
WITH an error ("invalid signature"), not false without an error as the
claim states. -/
theorem verify_rejected_signature_returns_error :
    keyfile.TPMKey.Verify (fun _ _ _ => false) (fun _ _ _ _ => none) kECC 4 [] [] =
      some (false, some "invalid signature") := by decide

/-- C5 (amended): for every Key with a reconstructed public key of either
shape, `Verify` returns true (and no error) exactly when the external
verification primitive accepts the signature, and returns false TOGETHER
WITH an error whenever the primitive rejects it — ECDSA rejections are
wrapped in "invalid signature", RSA PKCS#1v1.5 rejections in "signature
verification failed: ..."; the code does not distinguish a tampered
signature from a malformed encoding, erroring in both cases. -/
theorem verify_outcome_characterization
    (ec : keyfile.EcdsaPublicKey → List Nat → List Nat → Bool)
    (rs : keyfile.RsaPublicKey → Nat → List Nat → List Nat → Option String)
    (t : keyfile.TPMKey) (alg : Nat) (hashed sig : List Nat) :
    (∀ pk : keyfile.EcdsaPublicKey, t.PublicKey = some (.ok (.ecdsa (some pk))) →
      (ec pk hashed sig = true →
        keyfile.TPMKey.Verify ec rs t alg hashed sig = some (true, none)) ∧
      (ec pk hashed sig = false →
        keyfile.TPMKey.Verify ec rs t alg hashed sig =
          some (false, some "invalid signature"))) ∧
    (∀ pk : keyfile.RsaPublicKey, t.PublicKey = some (.ok (.rsa pk)) →
      (rs pk alg hashed sig = none →
        keyfile.TPMKey.Verify ec rs t alg hashed sig = some (true, none)) ∧
      (∀ err, rs pk alg hashed sig = some err →
        keyfile.TPMKey.Verify ec rs t alg hashed sig =
          some (false, some ("signature verification failed: " ++ err)))) := by
  constructor
  · intro pk h
    simp only [keyfile.TPMKey.Verify, h]
    constructor <;> intro h' <;> simp [h']
  · intro pk h
    simp only [keyfile.TPMKey.Verify, h]
    constructor
    · intro h'
      simp [h']
    · intro err h'
      simp [h']

/-- C5 witness: `verify_outcome_characterization` at the concrete P-256
key `kECC` (accepting ECDSA primitive) and at the concrete RSA key `kRSA`
(rejecting RSA primitive, whose rejection is wrapped in an error). -/
theorem verify_outcome_characterization_witness :
    keyfile.TPMKey.Verify (fun _ _ _ => true) (fun _ _ _ _ => none) kECC 4 [0] [1] =
      some (true, none) ∧
    keyfile.TPMKey.Verify (fun _ _ _ => false)
        (fun _ _ _ _ => some "crypto/rsa: verification error") kRSA 4 [0] [1] =
      some (false, some ("signature verification failed: " ++ "crypto/rsa: verification error")) :=
  ⟨((verify_outcome_characterization (fun _ _ _ => true) (fun _ _ _ _ => none)
      kECC 4 [0] [1]).1 ⟨.P256, 258, 772⟩ (by decide)).1 rfl,
   ((verify_outcome_characterization (fun _ _ _ => false)
      (fun _ _ _ _ => some "crypto/rsa: verification error")
      kRSA 4 [0] [1]).2 ⟨5, 3⟩ (by decide)).2 "crypto/rsa: verification error" rfl⟩

/-- C6: once the outer sequence and its leading object identifier have
been read, `Parse` fails with the unknown-key-type error whenever the OID
is none of the four recognized values, and every successfully decoded Key
stores that OID verbatim in its keytype field. -/
theorem parse_oid_gate (b s0 r0 oid s1 : List Nat)
    (h1 : ReadASN1 b 0x30 = some (s0, r0))
    (h2 : ReadASN1ObjectIdentifier s0 = some (oid, s1)) :
    (¬(oid = keyfiles.OIDLoadableKey ∨ oid = keyfiles.OIDImportbleKey ∨
        oid = keyfiles.OIDSealedKey ∨ oid = keyfiles.OIDOldLoadableKey) →
      keyfiles.Parse b = .error "unknown key type") ∧
    (∀ k, keyfiles.Parse b = .ok k → k.keytype = oid) := by
  constructor
  · intro hno
    unfold keyfiles.Parse
    simp only [h1, h2]
    rw [if_neg hno]
  · intro k hk
    obtain ⟨s0', r0', oid', s1', optEA, s2, emptyAuth, policy, s3, optSecret, s4, secret,
      aps, s5, parent, s6, pubkey, s7, privkey, s8, heq0, heq1, hoid, heq2, heq3, heq4,
      heq5, heq6, heq7, heq8, heq9, heq10, hkeq⟩ := keyfiles.Parse_ok_inv b k hk
    have e0 := h1.symm.trans heq0
    simp only [Option.some.injEq, Prod.mk.injEq] at e0
    obtain ⟨e0a, e0b⟩ := e0
    subst e0a
    have e1 := h2.symm.trans heq1
    simp only [Option.some.injEq, Prod.mk.injEq] at e1
    obtain ⟨e1a, e1b⟩ := e1
    subst e1a
    rw [hkeq]

/-- C6 witness: `bUnknownOid` (a well-formed outer sequence whose OID
2.23.133.10.1.6 is none of the four) is rejected with the unknown-key-type
error. -/
theorem parse_oid_gate_witness :
    keyfiles.Parse bUnknownOid = .error "unknown key type" :=
  (parse_oid_gate bUnknownOid
    ([0x06, 0x06, 0x67, 0x81, 0x05, 0x0a, 0x01, 0x06] ++ tailBytes) []
    [2, 23, 133, 10, 1, 6] tailBytes (by decide) (by decide)).1 (by decide)

/-- C7: for every decodable input, at the emptyAuth position of the wire
(right after the OID) either the context-tag-0 wrapper is absent and the
decoded Key's emptyAuth is false, or the wrapper is present and the
decoded emptyAuth equals the wrapped DER boolean verbatim — including an
explicit false. -/
theorem parse_emptyAuth_semantics (b : List Nat) (k : keyfiles.TPMKey)
    (h : keyfiles.Parse b = .ok k) :
    ∃ s0 r0 oid s1 optEA s2,
      ReadASN1 b 0x30 = some (s0, r0) ∧
      ReadASN1ObjectIdentifier s0 = some (oid, s1) ∧
      ReadOptionalASN1 s1 0xA0 = some (optEA, s2) ∧
      ((optEA = none ∧ k.emptyAuth = false) ∨
        (∃ c v r, optEA = some c ∧ ReadASN1Boolean c = some (v, r) ∧ k.emptyAuth = v)) := by
  obtain ⟨s0, r0, oid, s1, optEA, s2, emptyAuth, policy, s3, optSecret, s4, secret,
    aps, s5, parent, s6, pubkey, s7, privkey, s8, heq0, heq1, hoid, heq2, heq3, heq4,
    heq5, heq6, heq7, heq8, heq9, heq10, hkeq⟩ := keyfiles.Parse_ok_inv b k h
  refine ⟨s0, r0, oid, s1, optEA, s2, heq0, heq1, heq2, ?_⟩
  cases optEA with
  | none =>
    left
    refine ⟨rfl, ?_⟩
    simp only [keyfiles.readEmptyAuth] at heq3
    cases heq3
    rw [hkeq]
  | some c =>
    right
    simp only [keyfiles.readEmptyAuth] at heq3
    cases hB : ReadASN1Boolean c with
    | none =>
      simp only [hB] at heq3
      exact absurd heq3 (by simp)
    | some p =>
      obtain ⟨v, r⟩ := p
      simp only [hB, Except.ok.injEq] at heq3
      subst heq3
      exact ⟨c, v, r, rfl, hB, by simp [hkeq]⟩

/-- C7 witness: `bExplicitFalse` carries an explicit
`emptyAuth [0] EXPLICIT BOOLEAN FALSE`; it decodes to `kPlain`, whose
emptyAuth is false, and `parse_emptyAuth_semantics` applies to it. -/
theorem parse_emptyAuth_semantics_witness :
    keyfiles.Parse bExplicitFalse = .ok kPlain ∧
    (∃ s0 r0 oid s1 optEA s2,
      ReadASN1 bExplicitFalse 0x30 = some (s0, r0) ∧
      ReadASN1ObjectIdentifier s0 = some (oid, s1) ∧
      ReadOptionalASN1 s1 0xA0 = some (optEA, s2) ∧
      ((optEA = none ∧ kPlain.emptyAuth = false) ∨
        (∃ c v r, optEA = some c ∧ ReadASN1Boolean c = some (v, r) ∧
          kPlain.emptyAuth = v))) :=
  ⟨by decide, parse_emptyAuth_semantics bExplicitFalse kPlain (by decide)⟩

/-- The coarser `parseTPMPolicy` is the nil-ness-forgetting image of
`parseTPMPolicyNil`: the two embeddings of the same source function agree
once the Go slice's nil-ness is flattened away (nil and the non-nil empty
slice both become the empty list). -/
theorem parseTPMPolicy_flattens_parseTPMPolicyNil (der : List Nat) :
    keyfiles.parseTPMPolicy der =
      Except.map (fun p => (p.1.getD [], p.2)) (keyfiles.parseTPMPolicyNil der) := by
  unfold keyfiles.parseTPMPolicy keyfiles.parseTPMPolicyNil
  repeat' split <;> try rfl

/-- C8: a present-but-empty policy wrapper and an absent one decode to
DISTINGUISHABLE policy values in the Key — the source returns the
never-appended nil slice for a present-but-empty wrapper and the non-nil
empty slice literal for an absent one, and `parseTPMPolicyNil` tracks
exactly that trace — and the spec-modelled encoder, which re-emits the
wrapper exactly when the Key carried one, therefore re-encodes the
present-but-empty decode WITH the wrapper (`A1 02 30 00`) while the
absent-wrapper decode re-encodes without it. -/
theorem present_empty_policy_wrapper_preserved
    (der w rest rest2 : List Nat)
    (h1 : ReadOptionalASN1 der 0xA1 = some (some w, rest))
    (h2 : ReadASN1 w 0x30 = some ([], rest2)) :
    keyfiles.parseTPMPolicyNil der = .ok (none, rest) ∧
    (∀ der2 : List Nat, PeekASN1Tag der2 0xA1 = false →
      keyfiles.parseTPMPolicyNil der2 = .ok (some [], der2)) ∧
    (none : Option (List keyfiles.TPMPolicy)) ≠ some [] ∧
    keyfiles.EncodePolicies none = [0xA1, 0x02, 0x30, 0x00] ∧
    keyfiles.EncodePolicies (some []) = [] := by
  refine ⟨?_, ?_, by simp, rfl, rfl⟩
  · unfold keyfiles.parseTPMPolicyNil
    simp only [h1, h2]
    simp
  · intro der2 hpeek
    unfold keyfiles.parseTPMPolicyNil ReadOptionalASN1
    rw [hpeek]
    simp

/-- C8 witness: `present_empty_policy_wrapper_preserved` at the concrete
policy segment `A1 02 30 00` followed by the mandatory tail fields. -/
theorem present_empty_policy_wrapper_preserved_witness :
    keyfiles.parseTPMPolicyNil ([0xA1, 0x02, 0x30, 0x00] ++ tailBytes) =
      .ok (none, tailBytes) ∧
    keyfiles.EncodePolicies none = [0xA1, 0x02, 0x30, 0x00] :=
  ⟨(present_empty_policy_wrapper_preserved ([0xA1, 0x02, 0x30, 0x00] ++ tailBytes)
      [0x30, 0x00] tailBytes [] (by decide) (by decide)).1,
   (present_empty_policy_wrapper_preserved ([0xA1, 0x02, 0x30, 0x00] ++ tailBytes)
      [0x30, 0x00] tailBytes [] (by decide) (by decide)).2.2.2.1⟩

/-- C9: `Signer` fails immediately with the no-sign-capability error when
`HasSinger` is false, and returns the signer handle (the spec-modelled
`NewTPMKeySigner` applied to the key, the auth material and the transport)
without error when `HasSinger` is true. -/
theorem signer_requires_sign_capability (t : keyfile.TPMKey) (tpm : keyfile.TPMCloser)
    (ownerAuth auth : List Nat) (hs : Bool) (h : t.HasSinger = some hs) :
    (hs = false → t.Signer tpm ownerAuth auth =
      some (.error "does not have sign/encrypt attribute set")) ∧
    (hs = true → t.Signer tpm ownerAuth auth =
      some (.ok (keyfile.NewTPMKeySigner t ownerAuth tpm auth))) := by
  simp only [keyfile.TPMKey.Signer, h]
  constructor <;> intro h' <;> rw [h'] <;> simp

/-- C9 witness: both arms of `signer_requires_sign_capability` — the
signing-capable `kECC` (SignEncrypt bit set) yields a handle, the
non-signing `kBadCurve` (attribute word zero) yields the error. -/
theorem signer_requires_sign_capability_witness :
    kECC.HasSinger = some true ∧
    kECC.Signer ⟨⟩ [] [] = some (.ok (keyfile.NewTPMKeySigner kECC [] ⟨⟩ [])) ∧
    kBadCurve.HasSinger = some false ∧
    kBadCurve.Signer ⟨⟩ [] [] = some (.error "does not have sign/encrypt attribute set") :=
  ⟨by decide,
   (signer_requires_sign_capability kECC ⟨⟩ [] [] true (by decide)).2 rfl,
   by decide,
   (signer_requires_sign_capability kBadCurve ⟨⟩ [] [] false (by decide)).1 rfl⟩

/-- C10 counterexample: `bPlain` decodes successfully although its pubkey
octet string `aa bb` is NOT a parsable public area — `Parse` stores the
blob verbatim without validating it, so decode does not establish the
invariant the claim asserts. -/
theorem decode_accepts_unparsable_public_area :
    keyfiles.Parse bPlain = .ok kPlain ∧
    keyfile.parsePublicArea kPlain.Pubkey = .error "malformed public area" :=
  ⟨by decide, by decide⟩

/-- C10 (amended): decode does not validate the public-area blob, so a
successfully decoded Key may carry an unparsable public area and the
fatal/panic branch of the attribute queries `HasSinger` and `KeyAlgo`
(modelled as `none`) IS reachable: the key entity holding exactly the
pubkey bytes that `Parse bPlain` produced panics on both queries. -/
theorem hasSinger_panic_branch_reachable :
    keyfiles.Parse bPlain = .ok kPlain ∧
    kFromPlain.Pubkey.Buffer = kPlain.Pubkey ∧
    kFromPlain.HasSinger = none ∧ kFromPlain.KeyAlgo = none :=
  ⟨by decide, by decide, by decide, by decide⟩
